import Mathlib

/-!
Verification of the line-oriented arithmetic-expression compiler
(`src/index.js`): tokenizer, stack-based right-to-left parser,
tagged node model, diagnostic model, line driver and evaluator.

Modelling conventions:
* JavaScript numbers are modelled as exact rationals extended with the
  IEEE special values `NaN`, `Infinity`, `-Infinity`, plus the distinct
  JavaScript values `null` and `undefined` that the program's node
  evaluation can produce.  Float rounding and negative zero are outside
  the model; no theorem below depends on them.
* `Number(s)` string-to-number coercion is modelled on the fragment of
  whitespace-free decimal literals (optional sign, digits, optional
  single fractional part); inputs outside that fragment (hexadecimal,
  exponent notation, `Infinity`) map to `nan` in the model and are never
  evaluated by any theorem below.
* Whitespace is modelled by `Char.isWhitespace` (space, tab, CR, LF).
* JavaScript code that would throw (the `lastToken` reference on line
  123 of the source) or return a value outside the `ParseResult` sum is
  modelled by the `Except.error` constructor; well-behaved returns use
  `Except.ok`.
-/

/-- JavaScript runtime values producible by evaluating a `LangNode`:
exact rationals standing in for finite doubles, the IEEE special values,
and the distinct non-numeric values `null` (from VOID) and `undefined`
(from the operator `switch` falling through). -/
inductive JSValue where
  | num (q : ℚ)
  | nan
  | posInf
  | negInf
  | nullV
  | undefV
deriving DecidableEq, Repr

/-- JavaScript `ToNumber` coercion as applied by the arithmetic
operators to the values this program can produce: `null` coerces to `0`,
`undefined` to `NaN`, numeric values unchanged. -/
def toNumber : JSValue → JSValue
  | .nullV => .num 0
  | .undefV => .nan
  | v => v

/-- JavaScript `+` on the values this program can produce (both operands
are always non-string node values, so numeric addition applies). -/
def jsAdd (a b : JSValue) : JSValue :=
  match toNumber a, toNumber b with
  | .num x, .num y => .num (x + y)
  | .num _, .posInf => .posInf
  | .num _, .negInf => .negInf
  | .posInf, .num _ => .posInf
  | .negInf, .num _ => .negInf
  | .posInf, .posInf => .posInf
  | .negInf, .negInf => .negInf
  | .posInf, .negInf => .nan
  | .negInf, .posInf => .nan
  | _, _ => .nan

/-- JavaScript `-` on the values this program can produce. -/
def jsSub (a b : JSValue) : JSValue :=
  match toNumber a, toNumber b with
  | .num x, .num y => .num (x - y)
  | .num _, .posInf => .negInf
  | .num _, .negInf => .posInf
  | .posInf, .num _ => .posInf
  | .negInf, .num _ => .negInf
  | .posInf, .negInf => .posInf
  | .negInf, .posInf => .negInf
  | _, _ => .nan

/-- JavaScript `*` on the values this program can produce. -/
def jsMul (a b : JSValue) : JSValue :=
  match toNumber a, toNumber b with
  | .num x, .num y => .num (x * y)
  | .num x, .posInf => if 0 < x then .posInf else if x < 0 then .negInf else .nan
  | .num x, .negInf => if 0 < x then .negInf else if x < 0 then .posInf else .nan
  | .posInf, .num y => if 0 < y then .posInf else if y < 0 then .negInf else .nan
  | .negInf, .num y => if 0 < y then .negInf else if y < 0 then .posInf else .nan
  | .posInf, .posInf => .posInf
  | .negInf, .negInf => .posInf
  | .posInf, .negInf => .negInf
  | .negInf, .posInf => .negInf
  | _, _ => .nan

/-- JavaScript `/` on the values this program can produce (division by
zero yields a signed infinity or `NaN`; the sign of zero is outside the
model). -/
def jsDiv (a b : JSValue) : JSValue :=
  match toNumber a, toNumber b with
  | .num x, .num y =>
      if y = 0 then (if 0 < x then .posInf else if x < 0 then .negInf else .nan)
      else .num (x / y)
  | .num _, .posInf => .num 0
  | .num _, .negInf => .num 0
  | .posInf, .num y => if 0 ≤ y then .posInf else .negInf
  | .negInf, .num y => if 0 ≤ y then .negInf else .posInf
  | _, _ => .nan

/-- Numeric value of a list of decimal digit characters. -/
def digitsToNat (cs : List Char) : ℕ :=
  cs.foldl (fun acc c => 10 * acc + (c.toNat - Char.toNat '0')) 0

/-- Unsigned decimal literal: digits with an optional single fractional
part (`"5"`, `"5."`, `".5"`, `"1.25"`); `none` when the characters are
not of this shape. -/
def parseUnsignedDec (cs : List Char) : Option ℚ :=
  let ip := cs.takeWhile Char.isDigit
  let r1 := cs.dropWhile Char.isDigit
  match r1 with
  | [] => if ip.isEmpty then none else some (digitsToNat ip)
  | '.' :: r2 =>
      let fp := r2.takeWhile Char.isDigit
      let r3 := r2.dropWhile Char.isDigit
      if ip.isEmpty && fp.isEmpty then none
      else
        match r3 with
        | [] => some ((digitsToNat ip : ℚ) + (digitsToNat fp : ℚ) / (10 ^ fp.length))
        | _ => none
  | _ => none

/-- JavaScript `Number(s)` for the whitespace-free decimal fragment:
the empty string coerces to `0`; an optional sign followed by a decimal
literal gives its value; everything else gives `NaN` (see the module
note for the fragment modelled). -/
def jsNumber (s : String) : JSValue :=
  match s.data with
  | [] => .num 0
  | c :: rest =>
      let signed : ℚ × List Char :=
        if c = '-' then (-1, rest) else if c = '+' then (1, rest) else (1, c :: rest)
      match parseUnsignedDec signed.2 with
      | some q => .num (signed.1 * q)
      | none => .nan

/-- The `LangNode` tagged union built by `VoidNode`, `NumberNode` and
`BinaryExpressionNode` in the source.  A number node stores its literal
text (the source stores the token string and coerces at evaluation
time); a binary node stores the operation token and owns its two
operand nodes. -/
inductive Node where
  | voidNode
  | numberNode (number : String)
  | binaryExpressionNode (operation : String) (arg1 : Node) (arg2 : Node)
deriving DecidableEq, Repr

/-- Source `VoidNode()`. -/
def VoidNode : Node := Node.voidNode

/-- Source `NumberNode(number)`. -/
def NumberNode (number : String) : Node := Node.numberNode number

/-- Source `BinaryExpressionNode(operation, arg1, arg2)`. -/
def BinaryExpressionNode (operation : String) (arg1 arg2 : Node) : Node :=
  Node.binaryExpressionNode operation arg1 arg2

/-- The `type` tag string carried by each `LangNode`. -/
def Node.type : Node → String
  | .voidNode => "VOID"
  | .numberNode _ => "NUMBER"
  | .binaryExpressionNode _ _ _ => "BINARY_EXPRESSION"

/-- The `switch (operation)` in `BinaryExpressionNode`'s value closure:
one of the four arithmetic operators, or `undefined` when the operation
token is none of the four `case` labels (the `switch` falls through). -/
def applyOp (operation : String) (a b : JSValue) : JSValue :=
  if operation = "+" then jsAdd a b
  else if operation = "-" then jsSub a b
  else if operation = "*" then jsMul a b
  else if operation = "/" then jsDiv a b
  else .undefV

/-- The `value()` closure of each `LangNode`: `VOID` evaluates to
`null`, a number node to `Number(literal)`, a binary node to the
`switch` on its operation applied to its operands' values. -/
def Node.value : Node → JSValue
  | .voidNode => .nullV
  | .numberNode s => jsNumber s
  | .binaryExpressionNode operation a b => applyOp operation a.value b.value

/-- Source `COMPILER_ERRORS.INCOMPLETE_EXPRESSION`. -/
def COMPILER_ERRORS_INCOMPLETE_EXPRESSION : String := "Incomplete expression provided"

/-- Source `COMPILER_ERRORS.INVALID_TOKEN`. -/
def COMPILER_ERRORS_INVALID_TOKEN : String := "Invalid token provided"

/-- Source `COMPILER_ERRORS.INVALID_STACK`. -/
def COMPILER_ERRORS_INVALID_STACK : String := "Invalid stack element"

/-- Source `COMPILER_ERRORS.MULTIPLE_EXPRESSIONS`. -/
def COMPILER_ERRORS_MULTIPLE_EXPRESSIONS : String := "Multiple expressions on a single line"

/-- The payload of `CompilerError(error, expected, token, lineNumber)`.
`token = none` models the JavaScript `undefined` that is passed when
`tokens.pop()` is called on an empty array. -/
structure CompilerError where
  error : String
  expected : String
  token : Option String
  lineNumber : ℕ
deriving DecidableEq, Repr

/-- JavaScript template-literal rendering of the (possibly `undefined`)
offending token: `undefined` interpolates as the text `"undefined"`. -/
def jsShow : Option String → String
  | some s => s
  | none => "undefined"

/-- The `generateError` closure inside `CompilerError`. -/
def generateError (e : CompilerError) : String :=
  "[COMPILATION ERROR]: " ++ e.error ++ " => expected " ++ e.expected ++
    ", got '" ++ jsShow e.token ++ "' on line " ++ toString e.lineNumber

/-- The per-line parser output: a `LangNode` (`isNode: true`) or a
`CompilerError` object (`isNode: false`). -/
inductive ParseResult where
  | node (n : Node)
  | err (e : CompilerError)
deriving DecidableEq, Repr

instance {ε α : Type} [DecidableEq ε] [DecidableEq α] : DecidableEq (Except ε α) := fun x y =>
  match x, y with
  | .ok a, .ok b => if h : a = b then isTrue (by rw [h]) else isFalse (by simp [h])
  | .error a, .error b => if h : a = b then isTrue (by rw [h]) else isFalse (by simp [h])
  | .ok _, .error _ => isFalse (by simp)
  | .error _, .ok _ => isFalse (by simp)

/-- The `isNode` flag distinguishing `LangNode`s from `CompilerError`s. -/
def ParseResult.isNode : ParseResult → Bool
  | .node _ => true
  | .err _ => false

/-- Runtime value of one line as produced by `execute`: a JavaScript
value from a node's `value()`, or the formatted diagnostic string from a
compiler error's `value()`. -/
inductive RunValue where
  | jsv (v : JSValue)
  | jstr (s : String)
deriving DecidableEq, Repr

/-- The uniform `value()` call `execute` performs on every
`ParseResult`. -/
def ParseResult.value : ParseResult → RunValue
  | .node n => .jsv n.value
  | .err e => .jstr (generateError e)

/-- `Array.prototype.toString` applied to the parser's stack of plain
objects: each object renders as `"[object Object]"`, joined by commas
(used only by the `MULTIPLE_EXPRESSIONS` branch). -/
def stackToString (stack : List ParseResult) : String :=
  String.intercalate "," (stack.map fun _ => "[object Object]")

/-- `NUMBER_REGEX.test(token)` for
`NUMBER_REGEX = /(([1-9][0-9]*)|[0-9])((\.[0-9]+){0,1})/`.
The regex is UNANCHORED and `test` performs a substring search; the
alternative `[0-9]` matches any single digit and the fractional group is
optional, so the search succeeds exactly when the token contains at
least one decimal digit. -/
def NUMBER_REGEX_test (token : String) : Bool :=
  token.data.any Char.isDigit

/-- `OPERATION_REGEX.test(token)` for `OPERATION_REGEX = /\+|-|\*|\//`.
The regex is UNANCHORED: the search succeeds exactly when the token
contains at least one of the four operator characters. -/
def OPERATION_REGEX_test (token : String) : Bool :=
  token.data.any fun c => c = '+' || c = '-' || c = '*' || c = '/'

/-- Modelled from the spec: a full (anchored) match of the numeral
grammar `([1-9][0-9]*|[0-9])(\.[0-9]+)?` — integer part without a
leading zero on multi-digit integers, optional single fractional part,
no sign.  This is the spec's acceptance grammar, to be compared with the
code's unanchored `NUMBER_REGEX_test`. -/
def matchesNumeralGrammar (s : String) : Bool :=
  let ip := s.data.takeWhile Char.isDigit
  let rest := s.data.dropWhile Char.isDigit
  (decide (ip ≠ []) && ip.all Char.isDigit &&
    (decide (ip.length = 1) || decide (ip.head? ≠ some '0'))) &&
  (match rest with
   | [] => true
   | '.' :: f => decide (f ≠ []) && f.all Char.isDigit
   | _ => false)

/-- Modelled from the spec: the operator grammar `{+, -, *, /}` — the
token is exactly one of the four operator symbols.  This is the spec's
acceptance grammar, to be compared with the code's unanchored
`OPERATION_REGEX_test`. -/
def isOperatorToken (s : String) : Bool :=
  s = "+" || s = "-" || s = "*" || s = "/"

/-- `line.split(/\s+/)`: split at every maximal nonempty whitespace
run, processed character by character so the recursion is structural.
The empty string yields `[""]`; a whitespace character closes the
current segment and opens a new empty one, unless the next character is
also whitespace (the same run continues); a non-whitespace character is
prepended to the current first segment.  E.g. `" a  b "` yields
`["", "a", "b", ""]`, exactly as in JavaScript.  (The final catch-all
branch is unreachable: the result list is never empty.) -/
def splitWsChars : List Char → List String
  | [] => [""]
  | c :: tl =>
      if c.isWhitespace then
        match tl.head? with
        | some c2 =>
            if c2.isWhitespace then splitWsChars tl
            else String.mk [] :: splitWsChars tl
        | none => String.mk [] :: splitWsChars tl
      else
        match splitWsChars tl with
        | w :: ws => String.mk (c :: w.data) :: ws
        | [] => [String.mk [c]]

/-- Source `lexer(line)`: split on runs of whitespace. -/
def lexer (line : String) : List String :=
  splitWsChars line.data

/-- JavaScript `String.prototype.trim`: strip leading and trailing
whitespace. -/
def jsTrim (s : String) : String :=
  String.mk ((s.data.dropWhile Char.isWhitespace).rdropWhile Char.isWhitespace)

/-- The parser's `while (!!tokens.length)` loop.  `rev` is the list of
tokens still to be consumed, rightmost (next-popped) first, so
`tokens.pop()` is `rev`'s head; the stack's top is the list head.
Branches mirror the source line by line:
* stack empty: the popped token must pass `NUMBER_REGEX.test`, else
  `INVALID_TOKEN` expecting a number literal;
* popped stack fragment not a node: the source returns the undefined
  identifier `lastToken` — a `ReferenceError`, modelled as
  `Except.error`;
* fragment of type neither `NUMBER` nor `BINARY_EXPRESSION`:
  `INVALID_STACK`;
* token failing `OPERATION_REGEX.test`: `INVALID_TOKEN` expecting an
  operation token;
* `tokens.pop()` falsy (`undefined` when no token remains, or the empty
  string): `INCOMPLETE_EXPRESSION`;
* operand failing `NUMBER_REGEX.test`: `INVALID_TOKEN` expecting a
  number literal;
* otherwise push `BinaryExpressionNode(token, prevNode, NumberNode)`.

After the loop: more than one fragment is `MULTIPLE_EXPRESSIONS`;
`stack.pop()` on an empty stack would return `undefined` (not a
`ParseResult`), modelled as `Except.error`. -/
def parseLoop (rev : List String) (stack : List ParseResult) (lineNumber : ℕ) :
    Except String ParseResult :=
  match rev with
  | [] =>
      if stack.length > 1 then
        Except.ok (.err ⟨COMPILER_ERRORS_MULTIPLE_EXPRESSIONS, "a single token",
          some (stackToString stack), lineNumber⟩)
      else
        match stack with
        | top :: _ => Except.ok top
        | [] => Except.error "undefined"
  | token :: rest =>
      match stack with
      | [] =>
          if NUMBER_REGEX_test token then
            parseLoop rest [ParseResult.node (NumberNode token)] lineNumber
          else
            Except.ok (.err ⟨COMPILER_ERRORS_INVALID_TOKEN, "a number literal",
              some token, lineNumber⟩)
      | prevNode :: stackRest =>
          match prevNode with
          | .err _ => Except.error "ReferenceError: lastToken is not defined"
          | .node nd =>
              if nd.type = "NUMBER" ∨ nd.type = "BINARY_EXPRESSION" then
                if OPERATION_REGEX_test token = false then
                  Except.ok (.err ⟨COMPILER_ERRORS_INVALID_TOKEN, "an operation token",
                    some token, lineNumber⟩)
                else
                  match rest with
                  | [] =>
                      Except.ok (.err ⟨COMPILER_ERRORS_INCOMPLETE_EXPRESSION,
                        "a number literal", none, lineNumber⟩)
                  | nextToken :: rest2 =>
                      if nextToken = "" then
                        Except.ok (.err ⟨COMPILER_ERRORS_INCOMPLETE_EXPRESSION,
                          "a number literal", some "", lineNumber⟩)
                      else if NUMBER_REGEX_test nextToken = false then
                        Except.ok (.err ⟨COMPILER_ERRORS_INVALID_TOKEN,
                          "a number literal", some nextToken, lineNumber⟩)
                      else
                        parseLoop rest2
                          (ParseResult.node
                            (BinaryExpressionNode token nd (NumberNode nextToken)) :: stackRest)
                          lineNumber
              else
                Except.ok (.err ⟨COMPILER_ERRORS_INVALID_STACK, "a number or an operation",
                  some nd.type, lineNumber⟩)

/-- Source `parseExpression(tokens, lineNumber)`: the void-line check
(`!tokens.length || (tokens.length === 1 && tokens[0] === '')`) followed
by the right-to-left scan loop. -/
def parseExpression (tokens : List String) (lineNumber : ℕ) : Except String ParseResult :=
  if tokens = [] ∨ tokens = [""] then
    Except.ok (.node VoidNode)
  else
    parseLoop tokens.reverse [] lineNumber

/-- Source `compile(file)`: split the document on newlines and parse
each trimmed line at its 1-based line number.  A thrown exception in any
line's parse would propagate out of the `map`, hence the `Except`
sequencing. -/
def compile (file : String) : Except String (List ParseResult) :=
  (file.splitOn "\n").enum.mapM fun p =>
    parseExpression (lexer (jsTrim p.2)) (p.1 + 1)

/-- Source `execute(stack)`: call `value()` on every parse result. -/
def execute (stack : List ParseResult) : List RunValue :=
  stack.map ParseResult.value

/-- Source `run(file)` without the `console.log` side effects:
`execute(compile(file))`. -/
def run (file : String) : Except String (List RunValue) :=
  (compile file).map execute

/-- The node is a `NUMBER` or `BINARY_EXPRESSION` node — the only
fragments the parser ever pushes on its stack. -/
def isNumOrBin : Node → Bool
  | .numberNode _ => true
  | .binaryExpressionNode _ _ _ => true
  | .voidNode => false

/-- Loop invariant for the parser's scan: the stack is empty (only
before the first iteration, while tokens remain) or holds exactly one
`NUMBER`/`BINARY_EXPRESSION` node. -/
def GoodStack (stack : List ParseResult) (rev : List String) : Prop :=
  (stack = [] ∧ rev ≠ []) ∨ ∃ nd, stack = [ParseResult.node nd] ∧ isNumOrBin nd = true

/-- Classification of every value the scan loop can return: a
`NUMBER`/`BINARY_EXPRESSION` node, or a diagnostic of kind
`INVALID_TOKEN` or `INCOMPLETE_EXPRESSION`. -/
def GoodResult (r : ParseResult) : Prop :=
  (∃ nd, r = ParseResult.node nd ∧ isNumOrBin nd = true) ∨
  (∃ e, r = ParseResult.err e ∧
    (e.error = COMPILER_ERRORS_INVALID_TOKEN ∨
     e.error = COMPILER_ERRORS_INCOMPLETE_EXPRESSION))

/-- The parse result of one line of `compile`, with a placeholder for
the provably unreachable `Except.error` case. -/
def parseLineOk (line : String) (n : ℕ) : ParseResult :=
  match parseExpression (lexer (jsTrim line)) n with
  | Except.ok r => r
  | Except.error _ => ParseResult.node VoidNode

theorem isNumOrBin_type {nd : Node} (h : isNumOrBin nd = true) :
    nd.type = "NUMBER" ∨ nd.type = "BINARY_EXPRESSION" := by
  cases nd with
  | voidNode => simp [isNumOrBin] at h
  | numberNode s => exact Or.inl rfl
  | binaryExpressionNode op a b => exact Or.inr rfl

theorem parseLoop_nil_single (x : ParseResult) (n : ℕ) :
    parseLoop [] [x] n = Except.ok x := by
  simp [parseLoop]

theorem parseLoop_empty_stack_num {token : String} (rest : List String) (n : ℕ)
    (h : NUMBER_REGEX_test token = true) :
    parseLoop (token :: rest) [] n =
      parseLoop rest [ParseResult.node (NumberNode token)] n := by
  simp [parseLoop, h]

theorem parseLoop_empty_stack_err {token : String} (rest : List String) (n : ℕ)
    (h : NUMBER_REGEX_test token = false) :
    parseLoop (token :: rest) [] n =
      Except.ok (.err ⟨COMPILER_ERRORS_INVALID_TOKEN, "a number literal",
        some token, n⟩) := by
  simp [parseLoop, h]

theorem parseLoop_op_err {token : String} {nd : Node} (rest : List String)
    (stackRest : List ParseResult) (n : ℕ)
    (hnd : isNumOrBin nd = true) (h : OPERATION_REGEX_test token = false) :
    parseLoop (token :: rest) (ParseResult.node nd :: stackRest) n =
      Except.ok (.err ⟨COMPILER_ERRORS_INVALID_TOKEN, "an operation token",
        some token, n⟩) := by
  cases nd with
  | voidNode => simp [isNumOrBin] at hnd
  | numberNode s => rw [parseLoop.eq_def]; simp [Node.type, h]
  | binaryExpressionNode op a b => rw [parseLoop.eq_def]; simp [Node.type, h]

theorem parseLoop_incomplete_none {token : String} {nd : Node}
    (stackRest : List ParseResult) (n : ℕ)
    (hnd : isNumOrBin nd = true) (h : OPERATION_REGEX_test token = true) :
    parseLoop [token] (ParseResult.node nd :: stackRest) n =
      Except.ok (.err ⟨COMPILER_ERRORS_INCOMPLETE_EXPRESSION, "a number literal",
        none, n⟩) := by
  cases nd with
  | voidNode => simp [isNumOrBin] at hnd
  | numberNode s => rw [parseLoop.eq_def]; simp [Node.type, h]
  | binaryExpressionNode op a b => rw [parseLoop.eq_def]; simp [Node.type, h]

theorem parseLoop_incomplete_empty {token : String} {nd : Node}
    (rest2 : List String) (stackRest : List ParseResult) (n : ℕ)
    (hnd : isNumOrBin nd = true) (h : OPERATION_REGEX_test token = true) :
    parseLoop (token :: "" :: rest2) (ParseResult.node nd :: stackRest) n =
      Except.ok (.err ⟨COMPILER_ERRORS_INCOMPLETE_EXPRESSION, "a number literal",
        some "", n⟩) := by
  cases nd with
  | voidNode => simp [isNumOrBin] at hnd
  | numberNode s => rw [parseLoop.eq_def]; simp [Node.type, h]
  | binaryExpressionNode op a b => rw [parseLoop.eq_def]; simp [Node.type, h]

theorem parseLoop_operand_err {token nextToken : String} {nd : Node}
    (rest2 : List String) (stackRest : List ParseResult) (n : ℕ)
    (hnd : isNumOrBin nd = true) (h : OPERATION_REGEX_test token = true)
    (hne : nextToken ≠ "") (hnt : NUMBER_REGEX_test nextToken = false) :
    parseLoop (token :: nextToken :: rest2) (ParseResult.node nd :: stackRest) n =
      Except.ok (.err ⟨COMPILER_ERRORS_INVALID_TOKEN, "a number literal",
        some nextToken, n⟩) := by
  cases nd with
  | voidNode => simp [isNumOrBin] at hnd
  | numberNode s => rw [parseLoop.eq_def]; simp [Node.type, h, hne, hnt]
  | binaryExpressionNode op a b => rw [parseLoop.eq_def]; simp [Node.type, h, hne, hnt]

theorem parseLoop_reduce {token nextToken : String} {nd : Node}
    (rest2 : List String) (stackRest : List ParseResult) (n : ℕ)
    (hnd : isNumOrBin nd = true) (h : OPERATION_REGEX_test token = true)
    (hne : nextToken ≠ "") (hnt : NUMBER_REGEX_test nextToken = true) :
    parseLoop (token :: nextToken :: rest2) (ParseResult.node nd :: stackRest) n =
      parseLoop rest2
        (ParseResult.node (BinaryExpressionNode token nd (NumberNode nextToken)) :: stackRest)
        n := by
  cases nd with
  | voidNode => simp [isNumOrBin] at hnd
  | numberNode s => rw [parseLoop.eq_def]; simp [Node.type, h, hne, hnt]
  | binaryExpressionNode op a b => rw [parseLoop.eq_def]; simp [Node.type, h, hne, hnt]

/-- Master lemma: from any state satisfying the stack invariant, the
scan loop terminates with `Except.ok`, the result is a
`NUMBER`/`BINARY_EXPRESSION` node or an
`INVALID_TOKEN`/`INCOMPLETE_EXPRESSION` diagnostic, and neither the
`INVALID_STACK` branch, the `ReferenceError` branch, nor the
`MULTIPLE_EXPRESSIONS` check is ever reached. -/
theorem parseLoop_total :
    ∀ (fuel : ℕ) (rev : List String) (stack : List ParseResult) (n : ℕ),
      rev.length ≤ fuel → GoodStack stack rev →
      ∃ r, parseLoop rev stack n = Except.ok r ∧ GoodResult r := by
  intro fuel
  induction fuel with
  | zero =>
    intro rev stack n hlen hgs
    have hrev : rev = [] := List.length_eq_zero.mp (Nat.le_zero.mp hlen)
    subst hrev
    rcases hgs with ⟨_, hne⟩ | ⟨nd, hs, hnd⟩
    · exact absurd rfl hne
    · subst hs
      exact ⟨ParseResult.node nd, parseLoop_nil_single _ n, Or.inl ⟨nd, rfl, hnd⟩⟩
  | succ f ih =>
    intro rev stack n hlen hgs
    cases rev with
    | nil =>
      rcases hgs with ⟨_, hne⟩ | ⟨nd, hs, hnd⟩
      · exact absurd rfl hne
      · subst hs
        exact ⟨ParseResult.node nd, parseLoop_nil_single _ n, Or.inl ⟨nd, rfl, hnd⟩⟩
    | cons token rest =>
      have hlen' : rest.length ≤ f := by
        simpa using Nat.le_of_succ_le_succ (by simpa using hlen)
      rcases hgs with ⟨hs, _⟩ | ⟨nd, hs, hnd⟩
      · subst hs
        by_cases ht : NUMBER_REGEX_test token = true
        · rw [parseLoop_empty_stack_num rest n ht]
          exact ih rest _ n hlen' (Or.inr ⟨NumberNode token, rfl, rfl⟩)
        · have ht' : NUMBER_REGEX_test token = false := by
            simpa using ht
          exact ⟨_, parseLoop_empty_stack_err rest n ht',
            Or.inr ⟨_, rfl, Or.inl rfl⟩⟩
      · subst hs
        by_cases hop : OPERATION_REGEX_test token = true
        · cases rest with
          | nil =>
            exact ⟨_, parseLoop_incomplete_none [] n hnd hop,
              Or.inr ⟨_, rfl, Or.inr rfl⟩⟩
          | cons nextToken rest2 =>
            by_cases hne : nextToken = ""
            · subst hne
              exact ⟨_, parseLoop_incomplete_empty rest2 [] n hnd hop,
                Or.inr ⟨_, rfl, Or.inr rfl⟩⟩
            · by_cases hnt : NUMBER_REGEX_test nextToken = true
              · rw [parseLoop_reduce rest2 [] n hnd hop hne hnt]
                have hlen2 : rest2.length ≤ f := by
                  simp only [List.length_cons] at hlen
                  omega
                exact ih rest2 _ n hlen2
                  (Or.inr ⟨BinaryExpressionNode token nd (NumberNode nextToken), rfl, rfl⟩)
              · have hnt' : NUMBER_REGEX_test nextToken = false := by
                  simpa using hnt
                exact ⟨_, parseLoop_operand_err rest2 [] n hnd hop hne hnt',
                  Or.inr ⟨_, rfl, Or.inl rfl⟩⟩
        · have hop' : OPERATION_REGEX_test token = false := by
            simpa using hop
          exact ⟨_, parseLoop_op_err rest [] n hnd hop',
            Or.inr ⟨_, rfl, Or.inl rfl⟩⟩

theorem parseExpression_eq_loop {tokens : List String} (n : ℕ)
    (h1 : tokens ≠ []) (h2 : tokens ≠ [""]) :
    parseExpression tokens n = parseLoop tokens.reverse [] n := by
  simp [parseExpression, h1, h2]

/-- Totality of `parseExpression`: for every token list it returns a
`ParseResult` (never the modelled `ReferenceError`/`undefined` escapes),
namely the VOID node or a value allowed by `GoodResult`. -/
theorem parseExpression_total (tokens : List String) (n : ℕ) :
    ∃ r, parseExpression tokens n = Except.ok r ∧
      (r = ParseResult.node VoidNode ∨ GoodResult r) := by
  by_cases h : tokens = [] ∨ tokens = [""]
  · refine ⟨ParseResult.node VoidNode, ?_, Or.inl rfl⟩
    simp [parseExpression, h]
  · push_neg at h
    obtain ⟨h1, h2⟩ := h
    rw [parseExpression_eq_loop n h1 h2]
    have hrev : tokens.reverse ≠ [] := by simpa using h1
    obtain ⟨r, hr, hg⟩ :=
      parseLoop_total tokens.reverse.length tokens.reverse [] n le_rfl (Or.inl ⟨rfl, hrev⟩)
    exact ⟨r, hr, Or.inr hg⟩

theorem parseLine_eq_ok (line : String) (n : ℕ) :
    parseExpression (lexer (jsTrim line)) n = Except.ok (parseLineOk line n) := by
  obtain ⟨r, hr, _⟩ := parseExpression_total (lexer (jsTrim line)) n
  simp [parseLineOk, hr]

theorem mapM_eq_ok {α β : Type} (l : List α) (f : α → Except String β) (g : α → β)
    (h : ∀ a ∈ l, f a = Except.ok (g a)) : l.mapM f = Except.ok (l.map g) := by
  induction l with
  | nil => rfl
  | cons a t ih =>
    rw [List.mapM_cons, h a (List.mem_cons_self a t),
      ih fun x hx => h x (List.mem_cons_of_mem a hx)]
    rfl

theorem compile_ok (file : String) :
    compile file =
      Except.ok ((file.splitOn "\n").enum.map fun p => parseLineOk p.2 (p.1 + 1)) := by
  exact mapM_eq_ok _ _ _ fun p _ => parseLine_eq_ok p.2 (p.1 + 1)

theorem run_ok (file : String) :
    run file =
      Except.ok ((file.splitOn "\n").enum.map fun p =>
        (parseLineOk p.2 (p.1 + 1)).value) := by
  rw [run, compile_ok]
  simp [execute, Except.map, List.map_map, Function.comp]

theorem any_digit_of_takeWhile {cs : List Char}
    (h : cs.takeWhile Char.isDigit ≠ []) : cs.any Char.isDigit = true := by
  cases cs with
  | nil => simp [List.takeWhile] at h
  | cons c tl =>
    by_cases hc : Char.isDigit c
    · simp [List.any_cons, hc]
    · rw [List.takeWhile_cons, if_neg (by simp [hc])] at h
      exact absurd rfl h

/-- A token matching the spec's anchored numeral grammar also passes the
code's unanchored regex test (it contains a digit). -/
theorem test_of_grammar {s : String} (h : matchesNumeralGrammar s = true) :
    NUMBER_REGEX_test s = true := by
  unfold matchesNumeralGrammar at h
  simp only [Bool.and_eq_true, decide_eq_true_eq] at h
  exact any_digit_of_takeWhile h.1.1.1

/-- A token matching the spec's numeral grammar is nonempty. -/
theorem ne_empty_of_grammar {s : String} (h : matchesNumeralGrammar s = true) :
    s ≠ "" := by
  intro he
  subst he
  exact absurd h (by decide)

/-- A token matching the spec's operator grammar also passes the code's
unanchored regex test (it contains an operator character). -/
theorem op_test_of_operator {s : String} (h : isOperatorToken s = true) :
    OPERATION_REGEX_test s = true := by
  simp only [isOperatorToken, Bool.or_eq_true, decide_eq_true_eq] at h
  rcases h with ((h | h) | h) | h <;> subst h <;> decide

theorem mk_cons_ne_empty (c : Char) (l : List Char) : String.mk (c :: l) ≠ "" := by
  intro h
  have h2 : c :: l = ([] : List Char) := congrArg String.data h
  exact List.cons_ne_nil c l h2

theorem jsTrim_eq_empty_of_all_ws {s : String}
    (h : s.data.all Char.isWhitespace = true) : jsTrim s = "" := by
  unfold jsTrim
  have h1 : s.data.dropWhile Char.isWhitespace = [] := by
    rw [List.dropWhile_eq_nil_iff]
    intro x hx
    exact List.all_eq_true.mp h x hx
  rw [h1]
  simp

/-- A line containing a non-whitespace character trims to a string whose
first character is not whitespace. -/
theorem jsTrim_head_not_ws {s : String}
    (h : s.data.all Char.isWhitespace = false) :
    ∃ c tl, (jsTrim s).data = c :: tl ∧ c.isWhitespace = false := by
  obtain ⟨x, hx, hpx⟩ := List.all_eq_false.mp h
  have ha_ne : s.data.dropWhile Char.isWhitespace ≠ [] := by
    intro h0
    rw [List.dropWhile_eq_nil_iff] at h0
    exact hpx (h0 x hx)
  have ha_head := List.head_dropWhile_not Char.isWhitespace s.data ha_ne
  have hb_ne : (s.data.dropWhile Char.isWhitespace).rdropWhile Char.isWhitespace ≠ [] := by
    rw [Ne, List.rdropWhile_eq_nil_iff]
    intro hall
    rw [hall _ (List.head_mem ha_ne)] at ha_head
    exact Bool.noConfusion ha_head
  obtain ⟨c, tl, hb⟩ := List.exists_cons_of_ne_nil hb_ne
  refine ⟨c, tl, ?_, ?_⟩
  · show ((s.data.dropWhile Char.isWhitespace).rdropWhile Char.isWhitespace) = c :: tl
    exact hb
  · obtain ⟨t, ht⟩ :=
      @List.rdropWhile_prefix Char Char.isWhitespace (s.data.dropWhile Char.isWhitespace)
    have h1 : (s.data.dropWhile Char.isWhitespace).head? = some c := by
      conv_lhs => rw [← ht, hb]
      simp
    have h2 := List.head?_eq_head ha_ne
    rw [h1] at h2
    have h3 : c = (s.data.dropWhile Char.isWhitespace).head ha_ne :=
      Option.some.inj h2
    rw [h3]
    exact ha_head

/-- Splitting a character list whose head is not whitespace yields a
first token that is nonempty. -/
theorem splitWs_first_nonempty {c : Char} (tl : List Char)
    (hc : c.isWhitespace = false) :
    ∃ w ws, splitWsChars (c :: tl) = w :: ws ∧ w ≠ "" := by
  cases h : splitWsChars tl with
  | nil =>
    refine ⟨String.mk [c], [], ?_, mk_cons_ne_empty c []⟩
    simp [splitWsChars, hc, h]
  | cons w ws =>
    refine ⟨String.mk (c :: w.data), ws, ?_, mk_cons_ne_empty c w.data⟩
    simp [splitWsChars, hc, h]

/-- C1: Right-to-left reduction law.  For a line of tokens
`[t1, op1, t2, op2, t3]` with `t1, t2, t3` numerals of the spec grammar
and `op1, op2` operators, parsing produces the binary expression whose
left operand is the already-folded accumulator and whose right operand
is the further-left numeral, and evaluation yields
`(t3 op2 t2) op1 t1`. -/
theorem right_to_left_reduction_law
    (t1 op1 t2 op2 t3 : String) (n : ℕ)
    (h1 : matchesNumeralGrammar t1 = true)
    (h2 : matchesNumeralGrammar t2 = true)
    (h3 : matchesNumeralGrammar t3 = true)
    (ho1 : isOperatorToken op1 = true)
    (ho2 : isOperatorToken op2 = true) :
    parseExpression [t1, op1, t2, op2, t3] n =
      Except.ok (ParseResult.node
        (BinaryExpressionNode op1
          (BinaryExpressionNode op2 (NumberNode t3) (NumberNode t2))
          (NumberNode t1))) ∧
    (BinaryExpressionNode op1
        (BinaryExpressionNode op2 (NumberNode t3) (NumberNode t2))
        (NumberNode t1)).value =
      applyOp op1 (applyOp op2 (jsNumber t3) (jsNumber t2)) (jsNumber t1) := by
  constructor
  · rw [parseExpression_eq_loop n (by simp) (by simp)]
    rw [show ([t1, op1, t2, op2, t3] : List String).reverse = [t3, op2, t2, op1, t1] by
      simp]
    rw [parseLoop_empty_stack_num _ n (test_of_grammar h3)]
    rw [@parseLoop_reduce op2 t2 (NumberNode t3) [op1, t1] [] n rfl
      (op_test_of_operator ho2) (ne_empty_of_grammar h2) (test_of_grammar h2)]
    rw [@parseLoop_reduce op1 t1
      (BinaryExpressionNode op2 (NumberNode t3) (NumberNode t2)) [] [] n rfl
      (op_test_of_operator ho1) (ne_empty_of_grammar h1) (test_of_grammar h1)]
    exact parseLoop_nil_single _ n
  · rfl

/-- Witness for C1 at the spec's own example `1 + 2 * 3`. -/
theorem right_to_left_reduction_law_witness :
    (matchesNumeralGrammar "1" = true ∧ matchesNumeralGrammar "2" = true ∧
      matchesNumeralGrammar "3" = true ∧ isOperatorToken "+" = true ∧
      isOperatorToken "*" = true) ∧
    parseExpression ["1", "+", "2", "*", "3"] 1 =
      Except.ok (ParseResult.node
        (BinaryExpressionNode "+"
          (BinaryExpressionNode "*" (NumberNode "3") (NumberNode "2"))
          (NumberNode "1"))) ∧
    (BinaryExpressionNode "+"
        (BinaryExpressionNode "*" (NumberNode "3") (NumberNode "2"))
        (NumberNode "1")).value = JSValue.num 7 :=
  ⟨⟨by decide, by decide, by decide, by decide, by decide⟩,
   (right_to_left_reduction_law "1" "+" "2" "*" "3" 1
      (by decide) (by decide) (by decide) (by decide) (by decide)).1,
   by
    rw [(right_to_left_reduction_law "1" "+" "2" "*" "3" 1
      (by decide) (by decide) (by decide) (by decide) (by decide)).2]
    simp [applyOp, jsAdd, jsMul, toNumber, jsNumber, parseUnsignedDec, digitsToNat]
    norm_num⟩

/-- C2 counterexample: the token `01` does not match the spec's numeral
grammar (leading zero on a multi-digit integer), yet the parser accepts
it as a NUMBER node instead of returning an `INVALID_TOKEN`
diagnostic — `NUMBER_REGEX` is unanchored. -/
theorem numeral_grammar_counterexample :
    matchesNumeralGrammar "01" = false ∧
    parseExpression ["01"] 1 = Except.ok (ParseResult.node (NumberNode "01")) := by
  exact ⟨by decide, by decide⟩

/-- C2 amended: wherever the parser requires a numeral (rightmost token
on an empty stack, or the operand consumed after an operator), a token
is accepted as a NUMBER node exactly when it passes the unanchored
regex test, i.e. contains at least one decimal digit; a nonempty token
with no digit yields `INVALID_TOKEN` expecting "a number literal". -/
theorem unanchored_numeral_acceptance :
    (∀ (t : String) (rest : List String) (n : ℕ), NUMBER_REGEX_test t = false →
      parseLoop (t :: rest) [] n =
        Except.ok (.err ⟨COMPILER_ERRORS_INVALID_TOKEN, "a number literal",
          some t, n⟩)) ∧
    (∀ (t : String) (rest : List String) (n : ℕ), NUMBER_REGEX_test t = true →
      parseLoop (t :: rest) [] n = parseLoop rest [ParseResult.node (NumberNode t)] n) ∧
    (∀ (op t : String) (nd : Node) (rest2 : List String)
        (stackRest : List ParseResult) (n : ℕ),
      isNumOrBin nd = true → OPERATION_REGEX_test op = true → t ≠ "" →
      NUMBER_REGEX_test t = false →
      parseLoop (op :: t :: rest2) (ParseResult.node nd :: stackRest) n =
        Except.ok (.err ⟨COMPILER_ERRORS_INVALID_TOKEN, "a number literal",
          some t, n⟩)) ∧
    (∀ (op t : String) (nd : Node) (rest2 : List String)
        (stackRest : List ParseResult) (n : ℕ),
      isNumOrBin nd = true → OPERATION_REGEX_test op = true → t ≠ "" →
      NUMBER_REGEX_test t = true →
      parseLoop (op :: t :: rest2) (ParseResult.node nd :: stackRest) n =
        parseLoop rest2
          (ParseResult.node (BinaryExpressionNode op nd (NumberNode t)) :: stackRest) n) ∧
    (∀ t : String, NUMBER_REGEX_test t = t.data.any Char.isDigit) :=
  ⟨fun _ rest n h => parseLoop_empty_stack_err rest n h,
   fun _ rest n h => parseLoop_empty_stack_num rest n h,
   fun _ _ _ rest2 stackRest n hnd hop hne ht =>
     parseLoop_operand_err rest2 stackRest n hnd hop hne ht,
   fun _ _ _ rest2 stackRest n hnd hop hne ht =>
     parseLoop_reduce rest2 stackRest n hnd hop hne ht,
   fun _ => rfl⟩

/-- Witness for C2 amended, at the digit-free token `x` and the
digit-containing non-grammar token `01`. -/
theorem unanchored_numeral_acceptance_witness :
    (NUMBER_REGEX_test "x" = false ∧
      parseLoop ["x"] [] 4 =
        Except.ok (.err ⟨COMPILER_ERRORS_INVALID_TOKEN, "a number literal",
          some "x", 4⟩)) ∧
    (NUMBER_REGEX_test "01" = true ∧
      parseLoop ["01"] [] 4 = parseLoop [] [ParseResult.node (NumberNode "01")] 4) ∧
    (isNumOrBin (NumberNode "2") = true ∧ OPERATION_REGEX_test "+" = true ∧
      ("x" : String) ≠ "" ∧
      parseLoop ["+", "x"] [ParseResult.node (NumberNode "2")] 4 =
        Except.ok (.err ⟨COMPILER_ERRORS_INVALID_TOKEN, "a number literal",
          some "x", 4⟩)) :=
  ⟨⟨by decide, unanchored_numeral_acceptance.1 "x" [] 4 (by decide)⟩,
   ⟨by decide, unanchored_numeral_acceptance.2.1 "01" [] 4 (by decide)⟩,
   ⟨by decide, by decide, by decide,
    unanchored_numeral_acceptance.2.2.1 "+" "x" (NumberNode "2") [] [] 4
      (by decide) (by decide) (by decide) (by decide)⟩⟩

/-- C3 counterexample: the token `++` is not one of the four operator
symbols, yet with a fragment on the stack the parser does not return an
`INVALID_TOKEN` diagnostic — `OPERATION_REGEX` is unanchored — and `++`
is installed as the operation of a BINARY_EXPRESSION node, which then
evaluates to `undefined`, not to the arithmetic result of one of the
four operations. -/
theorem operator_grammar_counterexample :
    isOperatorToken "++" = false ∧
    parseExpression ["1", "++", "2"] 1 =
      Except.ok (ParseResult.node
        (BinaryExpressionNode "++" (NumberNode "2") (NumberNode "1"))) ∧
    (BinaryExpressionNode "++" (NumberNode "2") (NumberNode "1")).value =
      JSValue.undefV := by
  exact ⟨by decide, by decide, by decide⟩

/-- C3 amended: with a fragment on the stack, the popped token is
rejected with `INVALID_TOKEN` expecting "an operation token" exactly
when it contains none of the four operator characters (the unanchored
regex test); any token containing one is installed verbatim as the
BINARY_EXPRESSION's operation, and a BINARY_EXPRESSION whose operation
is not exactly one of `+`, `-`, `*`, `/` evaluates to `undefined`,
while the four exact operators evaluate to their arithmetic result. -/
theorem unanchored_operator_acceptance :
    (∀ (op : String) (nd : Node) (rest : List String)
        (stackRest : List ParseResult) (n : ℕ),
      isNumOrBin nd = true → OPERATION_REGEX_test op = false →
      parseLoop (op :: rest) (ParseResult.node nd :: stackRest) n =
        Except.ok (.err ⟨COMPILER_ERRORS_INVALID_TOKEN, "an operation token",
          some op, n⟩)) ∧
    (∀ (op t : String) (nd : Node) (rest2 : List String)
        (stackRest : List ParseResult) (n : ℕ),
      isNumOrBin nd = true → OPERATION_REGEX_test op = true → t ≠ "" →
      NUMBER_REGEX_test t = true →
      parseLoop (op :: t :: rest2) (ParseResult.node nd :: stackRest) n =
        parseLoop rest2
          (ParseResult.node (BinaryExpressionNode op nd (NumberNode t)) :: stackRest) n) ∧
    (∀ (op : String) (a b : Node), op ≠ "+" → op ≠ "-" → op ≠ "*" → op ≠ "/" →
      (BinaryExpressionNode op a b).value = JSValue.undefV) ∧
    (∀ a b : Node,
      (BinaryExpressionNode "+" a b).value = jsAdd a.value b.value ∧
      (BinaryExpressionNode "-" a b).value = jsSub a.value b.value ∧
      (BinaryExpressionNode "*" a b).value = jsMul a.value b.value ∧
      (BinaryExpressionNode "/" a b).value = jsDiv a.value b.value) ∧
    (∀ op : String, OPERATION_REGEX_test op =
      op.data.any fun c => c = '+' || c = '-' || c = '*' || c = '/') := by
  refine ⟨fun _ _ rest stackRest n hnd hop => parseLoop_op_err rest stackRest n hnd hop,
    fun _ _ _ rest2 stackRest n hnd hop hne ht =>
      parseLoop_reduce rest2 stackRest n hnd hop hne ht,
    ?_, ?_, fun _ => rfl⟩
  · intro op a b h1 h2 h3 h4
    simp [BinaryExpressionNode, Node.value, applyOp, h1, h2, h3, h4]
  · intro a b
    refine ⟨rfl, ?_, ?_, ?_⟩ <;> simp [BinaryExpressionNode, Node.value, applyOp]

/-- Witness for C3 amended, at the operator-free token `x` and the
non-exact operator token `++`. -/
theorem unanchored_operator_acceptance_witness :
    (isNumOrBin (NumberNode "1") = true ∧ OPERATION_REGEX_test "x" = false ∧
      parseLoop ["x"] [ParseResult.node (NumberNode "1")] 5 =
        Except.ok (.err ⟨COMPILER_ERRORS_INVALID_TOKEN, "an operation token",
          some "x", 5⟩)) ∧
    (OPERATION_REGEX_test "++" = true ∧
      parseLoop ["++", "2"] [ParseResult.node (NumberNode "1")] 5 =
        parseLoop []
          [ParseResult.node
            (BinaryExpressionNode "++" (NumberNode "1") (NumberNode "2"))] 5) ∧
    (("++" : String) ≠ "+" ∧
      (BinaryExpressionNode "++" (NumberNode "1") (NumberNode "2")).value =
        JSValue.undefV) :=
  ⟨⟨by decide, by decide,
    unanchored_operator_acceptance.1 "x" (NumberNode "1") [] [] 5 (by decide) (by decide)⟩,
   ⟨by decide,
    unanchored_operator_acceptance.2.1 "++" "2" (NumberNode "1") [] [] 5
      (by decide) (by decide) (by decide) (by decide)⟩,
   ⟨by decide,
    unanchored_operator_acceptance.2.2.1 "++" (NumberNode "1") (NumberNode "2")
      (by decide) (by decide) (by decide) (by decide)⟩⟩

/-- C4: Parser totality.  For every token sequence and line number the
parser returns exactly one `ParseResult` — a node or a diagnostic —
through the `Except.ok` constructor; the modelled failure modes (the
`ReferenceError` from the undefined `lastToken` identifier, and an
`undefined` return from popping an empty final stack) never occur. -/
theorem parser_totality (tokens : List String) (n : ℕ) :
    ∃ r : ParseResult, parseExpression tokens n = Except.ok r ∧
      ((∃ nd, r = ParseResult.node nd) ∨ (∃ e, r = ParseResult.err e)) := by
  obtain ⟨r, hr, _⟩ := parseExpression_total tokens n
  refine ⟨r, hr, ?_⟩
  cases r with
  | node nd => exact Or.inl ⟨nd, rfl⟩
  | err e => exact Or.inr ⟨e, rfl⟩

/-- C5: Stack invariant.  From every state in which the stack holds at
most one fragment, and that fragment is a NUMBER or BINARY_EXPRESSION
node (the invariant `GoodStack`, which holds initially and is preserved
by every iteration), the scan loop returns `Except.ok` with a result in
`GoodResult`; consequently a `MULTIPLE_EXPRESSIONS` or `INVALID_STACK`
diagnostic is never returned for any input line. -/
theorem stack_invariant_unreachable_diagnostics :
    (∀ (rev : List String) (stack : List ParseResult) (n : ℕ),
      GoodStack stack rev →
      ∃ r, parseLoop rev stack n = Except.ok r ∧ GoodResult r) ∧
    (∀ (tokens : List String) (n : ℕ) (e : CompilerError),
      parseExpression tokens n = Except.ok (ParseResult.err e) →
      e.error ≠ COMPILER_ERRORS_INVALID_STACK ∧
      e.error ≠ COMPILER_ERRORS_MULTIPLE_EXPRESSIONS) := by
  constructor
  · intro rev stack n h
    exact parseLoop_total rev.length rev stack n le_rfl h
  · intro tokens n e he
    obtain ⟨r, hr, hg⟩ := parseExpression_total tokens n
    have hre : r = ParseResult.err e := by
      have := hr.symm.trans he
      exact Except.ok.inj this
    subst hre
    rcases hg with hv | hg
    · exact absurd hv (by simp)
    · rcases hg with ⟨nd, hnd, _⟩ | ⟨e2, he2, hk⟩
      · exact absurd hnd (by simp)
      · have he2' : e2 = e := (ParseResult.err.inj he2).symm
        subst he2'
        rcases hk with hk | hk <;> rw [hk] <;> exact ⟨by decide, by decide⟩

/-- Witness for C5: the invariant holds for the initial state of the
line `1`, and the diagnostic produced for the line `/ + 1` is neither
`INVALID_STACK` nor `MULTIPLE_EXPRESSIONS`. -/
theorem stack_invariant_unreachable_diagnostics_witness :
    GoodStack [] ["1"] ∧
    (∃ r, parseLoop ["1"] [] 7 = Except.ok r ∧ GoodResult r) ∧
    (parseExpression ["/", "+", "1"] 8 =
      Except.ok (ParseResult.err ⟨COMPILER_ERRORS_INVALID_TOKEN,
        "a number literal", some "/", 8⟩) ∧
    (⟨COMPILER_ERRORS_INVALID_TOKEN, "a number literal", some "/",
        8⟩ : CompilerError).error ≠ COMPILER_ERRORS_INVALID_STACK ∧
    (⟨COMPILER_ERRORS_INVALID_TOKEN, "a number literal", some "/",
        8⟩ : CompilerError).error ≠ COMPILER_ERRORS_MULTIPLE_EXPRESSIONS) :=
  ⟨Or.inl ⟨rfl, by decide⟩,
   stack_invariant_unreachable_diagnostics.1 ["1"] [] 7 (Or.inl ⟨rfl, by decide⟩),
   by decide,
   (stack_invariant_unreachable_diagnostics.2 ["/", "+", "1"] 8
      ⟨COMPILER_ERRORS_INVALID_TOKEN, "a number literal", some "/", 8⟩ (by decide)).1,
   (stack_invariant_unreachable_diagnostics.2 ["/", "+", "1"] 8
      ⟨COMPILER_ERRORS_INVALID_TOKEN, "a number literal", some "/", 8⟩ (by decide)).2⟩

/-- C6: evaluation of the code at the claim's trigger state.  When the
fragment popped from the stack is a Diagnostic (`isNode` false), the
source does NOT return that Diagnostic: line 123 returns the undefined
identifier `lastToken`, a `ReferenceError` (the code's own comment says
"it's a compiler error, thus return it immediately", so this is a slip
for `prevNode`); no `Except.ok` result is produced from such a state.
The state itself is unreachable from `parseExpression`'s inputs. -/
theorem diagnostic_on_stack_reference_error :
    parseLoop ["1"]
        [ParseResult.err ⟨COMPILER_ERRORS_INVALID_TOKEN, "a number literal",
          some "x", 1⟩] 1 =
      Except.error "ReferenceError: lastToken is not defined" ∧
    ∀ r : ParseResult,
      parseLoop ["1"]
          [ParseResult.err ⟨COMPILER_ERRORS_INVALID_TOKEN, "a number literal",
            some "x", 1⟩] 1 ≠
        Except.ok r := by
  have heq : parseLoop ["1"]
      [ParseResult.err ⟨COMPILER_ERRORS_INVALID_TOKEN, "a number literal",
        some "x", 1⟩] 1 =
      Except.error "ReferenceError: lastToken is not defined" := rfl
  exact ⟨heq, fun r h => Except.noConfusion (heq.symm.trans h)⟩

/-- C7 counterexample: for the line `+ 1` the parser does return an
`INCOMPLETE_EXPRESSION` diagnostic expecting "a number literal", but
its offending token is the JavaScript `undefined` (from `tokens.pop()`
on an empty array), not the empty string: the formatted message reads
`got 'undefined'`, not `got ''`. -/
theorem incomplete_token_counterexample :
    parseExpression ["+", "1"] 1 =
      Except.ok (ParseResult.err ⟨COMPILER_ERRORS_INCOMPLETE_EXPRESSION,
        "a number literal", none, 1⟩) ∧
    generateError ⟨COMPILER_ERRORS_INCOMPLETE_EXPRESSION, "a number literal",
        none, 1⟩ =
      "[COMPILATION ERROR]: Incomplete expression provided => expected a number literal, got 'undefined' on line 1" ∧
    generateError ⟨COMPILER_ERRORS_INCOMPLETE_EXPRESSION, "a number literal",
        none, 1⟩ ≠
      "[COMPILATION ERROR]: Incomplete expression provided => expected a number literal, got '' on line 1" := by
  exact ⟨by decide, by decide, by decide⟩

/-- C7 amended: for the line `+ 1` at any line number the parser
returns an `INCOMPLETE_EXPRESSION` diagnostic expecting "a number
literal" whose offending token is the absent (`undefined`) value, and
the formatted message renders it as the text `undefined`. -/
theorem incomplete_expression_undefined_token (n : ℕ) :
    parseExpression ["+", "1"] n =
      Except.ok (ParseResult.err ⟨COMPILER_ERRORS_INCOMPLETE_EXPRESSION,
        "a number literal", none, n⟩) ∧
    generateError ⟨COMPILER_ERRORS_INCOMPLETE_EXPRESSION, "a number literal",
        none, n⟩ =
      "[COMPILATION ERROR]: Incomplete expression provided => expected a number literal, got 'undefined' on line "
        ++ toString n := by
  constructor
  · rw [parseExpression_eq_loop n (by decide) (by decide)]
    rw [show (["+", "1"] : List String).reverse = ["1", "+"] from rfl]
    rw [parseLoop_empty_stack_num _ n (by decide)]
    exact parseLoop_incomplete_none [] n rfl (by decide)
  · rfl

/-- C8: Blank lines and only blank lines produce VOID.  A line whose
characters are all whitespace (including the empty line) parses — after
the pipeline's trim and lexing — to the VOID node, whose value is the
JavaScript `null` sentinel, distinct from every number and from every
diagnostic string; a line with any non-whitespace character never
produces VOID: it yields a NUMBER or BINARY_EXPRESSION node or a
Diagnostic. -/
theorem blank_line_void (line : String) (n : ℕ) :
    (line.data.all Char.isWhitespace = true →
      parseExpression (lexer (jsTrim line)) n = Except.ok (ParseResult.node VoidNode)) ∧
    (line.data.all Char.isWhitespace = false →
      ∃ r, parseExpression (lexer (jsTrim line)) n = Except.ok r ∧
        ((∃ nd, r = ParseResult.node nd ∧ isNumOrBin nd = true) ∨
          ∃ e, r = ParseResult.err e) ∧
        r ≠ ParseResult.node VoidNode) ∧
    (ParseResult.node VoidNode).value = RunValue.jsv JSValue.nullV ∧
    (∀ q : ℚ, RunValue.jsv JSValue.nullV ≠ RunValue.jsv (JSValue.num q)) ∧
    (∀ e : CompilerError,
      (RunValue.jsv JSValue.nullV : RunValue) ≠ RunValue.jstr (generateError e)) := by
  refine ⟨?_, ?_, rfl, fun q => by simp, fun e => by simp⟩
  · intro h
    rw [jsTrim_eq_empty_of_all_ws h]
    rw [show lexer "" = [""] from rfl]
    simp [parseExpression]
  · intro h
    obtain ⟨c, tl, hdata, hc⟩ := jsTrim_head_not_ws h
    have hlex : lexer (jsTrim line) = splitWsChars (c :: tl) := by
      rw [lexer, hdata]
    obtain ⟨w, ws, hsplit, hw⟩ := splitWs_first_nonempty tl hc
    have htok : lexer (jsTrim line) = w :: ws := by rw [hlex, hsplit]
    have h1 : lexer (jsTrim line) ≠ [] := by rw [htok]; simp
    have h2 : lexer (jsTrim line) ≠ [""] := by
      rw [htok]
      intro hcontr
      injection hcontr with hw2 _
      exact hw hw2
    rw [parseExpression_eq_loop n h1 h2]
    have hrev : (lexer (jsTrim line)).reverse ≠ [] := by simpa using h1
    obtain ⟨r, hr, hg⟩ := parseLoop_total (lexer (jsTrim line)).reverse.length
      (lexer (jsTrim line)).reverse [] n le_rfl (Or.inl ⟨rfl, hrev⟩)
    refine ⟨r, hr, ?_, ?_⟩
    · rcases hg with ⟨nd, hnd, hb⟩ | ⟨e, he, _⟩
      · exact Or.inl ⟨nd, hnd, hb⟩
      · exact Or.inr ⟨e, he⟩
    · rcases hg with ⟨nd, hnd, hb⟩ | ⟨e, he, _⟩
      · intro hcontr
        rw [hnd] at hcontr
        have hv := ParseResult.node.inj hcontr
        rw [hv] at hb
        simp [VoidNode, isNumOrBin] at hb
      · rw [he]
        simp
  
/-- Witness for C8 at the whitespace-only line and at the line `x`. -/
theorem blank_line_void_witness :
    ((" ".data.all Char.isWhitespace = true) ∧
      parseExpression (lexer (jsTrim " ")) 2 = Except.ok (ParseResult.node VoidNode)) ∧
    (("x".data.all Char.isWhitespace = false) ∧
      ∃ r, parseExpression (lexer (jsTrim "x")) 3 = Except.ok r ∧
        ((∃ nd, r = ParseResult.node nd ∧ isNumOrBin nd = true) ∨
          ∃ e, r = ParseResult.err e) ∧
        r ≠ ParseResult.node VoidNode) :=
  ⟨⟨by decide, (blank_line_void " " 2).1 (by decide)⟩,
   ⟨by decide, (blank_line_void "x" 3).2.1 (by decide)⟩⟩

/-- C9: One output per line in line order.  `execute(compile(file))`
succeeds with the list that maps each (0-based index, line) pair of the
newline-split document to the value of that line's parse result at its
1-based line number — so the outputs appear in the document's line
order — and its length equals the number of lines. -/
theorem one_output_per_line (file : String) :
    run file =
      Except.ok ((file.splitOn "\n").enum.map fun p =>
        (parseLineOk p.2 (p.1 + 1)).value) ∧
    ((file.splitOn "\n").enum.map fun p =>
        (parseLineOk p.2 (p.1 + 1)).value).length =
      (file.splitOn "\n").length := by
  exact ⟨run_ok file, by simp⟩

/-- C10: Determinism of the pipeline.  Running
`execute(compile(file))` twice yields identical outputs, and the
element at index `i` of the output is a function of line `i` of the
document alone (no state is carried between lines or between runs): two
documents agreeing on line `i` produce the same output at index `i`. -/
theorem pipeline_determinism (f1 f2 : String) (i : ℕ) :
    run f1 = run f1 ∧
    ((f1.splitOn "\n").get? i = (f2.splitOn "\n").get? i →
      ∃ o1 o2, run f1 = Except.ok o1 ∧ run f2 = Except.ok o2 ∧
        o1.get? i = o2.get? i) := by
  refine ⟨rfl, fun h => ?_⟩
  refine ⟨_, _, run_ok f1, run_ok f2, ?_⟩
  have key : ∀ f : String,
      (((f.splitOn "\n").enum.map fun p => (parseLineOk p.2 (p.1 + 1)).value).get? i) =
        ((f.splitOn "\n").get? i).map fun line => (parseLineOk line (i + 1)).value := by
    intro f
    simp only [List.get?_eq_getElem?, List.getElem?_map, List.getElem?_enum,
      Option.map_map]
    rfl
  rw [key f1, key f2, h]

/-- Witness for C10: two runs of the same two-line document agree at
index 1. -/
theorem pipeline_determinism_witness :
    ("1\n+ 1".splitOn "\n").get? 1 = ("1\n+ 1".splitOn "\n").get? 1 ∧
    ∃ o1 o2, run "1\n+ 1" = Except.ok o1 ∧ run "1\n+ 1" = Except.ok o2 ∧
      o1.get? 1 = o2.get? 1 :=
  ⟨rfl, (pipeline_determinism "1\n+ 1" "1\n+ 1" 1).2 rfl⟩
